import Mathlib

/-!
Shallow embedding of the recording/upload core of `src/App.js` (the primary
variant; `src/unnamed/part_000` is an earlier variant of the same component).

The embedding covers:
* the upload retrier `attemptUploadFile` / `uploadFileWithRetries`
  (src/App.js lines 159-190) and the single-call uploader `uploadFile`
  (lines 192-211), modelled as a trace-producing function driven by two
  oracles: per-tick connectivity and per-call HTTP outcome;
* the session controller `startRecording` (lines 53-94), `stopRecording`
  (lines 96-129), `startTimer` (lines 131-149) and `clearTimer`
  (lines 151-157), modelled as explicit state passing over `AppState`,
  with JavaScript `setTimeout`/`clearTimeout` modelled as a registry of
  pending (id, absolute fire time in ms) pairs.

User-facing alerts are modelled as result constructors / trace events.
-/

namespace RecApp

/-! ## Upload retrier -/

/-- One HTTP upload call (`uploadFile`, src/App.js 192-211). The argument is
the outcome of the axios POST: `none` models a thrown network error, `some s`
a delivered response with HTTP status `s`. The JS function resolves (returns
`true` here) exactly when no error was thrown and `response.status` is 200;
otherwise it throws (returns `false`). -/
def uploadFile : Option Nat → Bool
  | some s => s == 200
  | none => false

/-- Observable events of one run of the retry loop, in execution order.
`httpCall k` is the k-th HTTP upload call being issued; `attemptIncr k` is the
`attempts++` statement making the counter reach `k` (it sits in the catch
block of src/App.js line 175); `scheduleRetry d` is `setTimeout(..., d)`;
the three notices are the corresponding `Alert.alert` calls. -/
inductive REvent where
  | offlineNotice
  | httpCall (attempt : Nat)
  | attemptIncr (attempt : Nat)
  | scheduleRetry (delayMs : Nat)
  | successNotice
  | exhaustedNotice
  deriving DecidableEq, Repr

/-- The inner closure `uploadFileWithRetries` (src/App.js 163-187), flattened
into the full trace of the asynchronous run (every scheduled retry timeout
eventually fires; nothing cancels them). `connected k` is the value of the
`isConnected` flag when the tick that would issue call `k` fires; `callOk k`
is whether the k-th HTTP call succeeds (`uploadFile` resolves). On a tick the
counter holds `attempts` and the pending delay holds `delay`; a tick either
stops on offline, succeeds, or fails: on failure `attempts` is incremented
and, while the incremented counter is `< 5`, a retry is scheduled after
`delay` ms and `delay` doubles. The fuel argument only bounds the recursion;
from the entry configuration it never runs out. -/
def uploadFileWithRetries (connected callOk : Nat → Bool) :
    Nat → Nat → Nat → List REvent
  | 0, _, _ => []
  | fuel + 1, attempts, delay =>
    if connected (attempts + 1) = false then
      [REvent.offlineNotice]
    else if callOk (attempts + 1) then
      [REvent.httpCall (attempts + 1), REvent.successNotice]
    else if attempts + 1 < 5 then
      REvent.httpCall (attempts + 1) :: REvent.attemptIncr (attempts + 1) ::
        REvent.scheduleRetry delay ::
          uploadFileWithRetries connected callOk fuel (attempts + 1) (delay * 2)
    else
      [REvent.httpCall (attempts + 1), REvent.attemptIncr (attempts + 1),
        REvent.exhaustedNotice]

/-- `attemptUploadFile` (src/App.js 159-190): starts the retry loop with
`attempts = 0` and `delay = 30000`. -/
def attemptUploadFile (connected callOk : Nat → Bool) : List REvent :=
  uploadFileWithRetries connected callOk 5 0 30000

/-- The attempt numbers of the HTTP calls issued in a trace. -/
def callsOf (t : List REvent) : List Nat :=
  t.filterMap fun e =>
    match e with
    | REvent.httpCall k => some k
    | _ => none

/-- The values taken by the `attempts` counter in a trace (one entry per
`attempts++` executed). -/
def incrsOf (t : List REvent) : List Nat :=
  t.filterMap fun e =>
    match e with
    | REvent.attemptIncr k => some k
    | _ => none

/-! ## Session controller -/

/-- The mutable component state relevant to the recording session, plus the
JavaScript timer runtime. `recording` is `recordingRef.current` (`some ()` =
a recorder handle is held), `isRecording` the React flag of the same name,
`timerId` the `timerId` state variable, `timeouts` the runtime's registry of
pending timeouts as (id, absolute fire time in ms) pairs, and `nextTimerId`
generates fresh timeout ids. -/
structure AppState where
  recording : Option Unit
  isRecording : Bool
  timerId : Option Nat
  timeouts : List (Nat × Nat)
  nextTimerId : Nat
  deriving DecidableEq, Repr

/-- `clearTimer` (src/App.js 151-157): if `timerId` is set, `clearTimeout` it
(remove it from the pending registry) and null the state variable; otherwise
do nothing. -/
def clearTimer (st : AppState) : AppState :=
  match st.timerId with
  | some i =>
      { st with timeouts := st.timeouts.filter (fun p => p.1 != i), timerId := none }
  | none => st

/-- Model of JavaScript `parseInt` on the duration text fields: skip leading
whitespace, an optional sign, then the longest prefix of decimal digits;
`none` models the NaN result when no digit is found (in particular on the
empty string). -/
def parseIntJS (s : String) : Option Int :=
  let core : List Char → Option Int → Option Int := fun cs sign =>
    let ds := cs.takeWhile (fun c => c.isDigit)
    if ds.isEmpty then none
    else some ((sign.getD 1) *
      (ds.foldl (fun acc c => acc * 10 + ((c.toNat : Int) - ('0'.toNat : Int))) 0))
  match s.toList.dropWhile (fun c => c.isWhitespace) with
  | [] => none
  | c :: cs =>
    if c = '-' then core cs (some (-1))
    else if c = '+' then core cs (some 1)
    else core (c :: cs) none

/-- The derived duration of src/App.js 132-134: each field goes through
`parseInt(...) || 0` (NaN, i.e. an unparseable or empty field, coerces to 0),
then `duration = hours*3600 + minutes*60` in seconds. -/
def durationSeconds (hours minutes : String) : Int :=
  ((parseIntJS hours).getD 0) * 3600 + ((parseIntJS minutes).getD 0) * 60

/-- `startTimer` (src/App.js 131-149), called at absolute time `now` ms: when
the derived duration is positive, clear any existing timer and register a
one-shot timeout for `duration * 1000` ms from now whose callback is
`stopRecording`; otherwise do nothing. -/
def startTimer (st : AppState) (hours minutes : String) (now : Nat) : AppState :=
  let duration := durationSeconds hours minutes
  if duration > 0 then
    let st1 := clearTimer st
    { st1 with
      timeouts := st1.timeouts ++ [(st1.nextTimerId, now + duration.toNat * 1000)],
      timerId := some st1.nextTimerId,
      nextTimerId := st1.nextTimerId + 1 }
  else st

/-- The user-visible outcome of `startRecording`: which `Alert.alert` branch
ran (or that recording started). -/
inductive StartResult where
  | alreadyRecording
  | permissionDenied
  | offline
  | started
  | startFailed
  deriving DecidableEq, Repr

/-- Outcomes of the external collaborators consulted by `startRecording`:
the microphone permission request, the `isConnected` flag at the check, and
whether `Audio.Recording.createAsync` resolves. -/
structure StartEnv where
  permissionGranted : Bool
  isConnected : Bool
  createOk : Bool
  deriving DecidableEq, Repr

/-- `startRecording` (src/App.js 53-94), invoked at absolute time `now` ms
with the current contents of the hours/minutes text fields. Guards in source
order: an existing `recordingRef.current` rejects with `AlreadyRecording`
before anything else; then permission; then connectivity. On success a
recorder handle is stored, the flag set, and — only when at least one of the
two duration fields is a non-empty (truthy) string — `startTimer` runs. A
`createAsync` failure resets the ref and flag. -/
def startRecording (st : AppState) (env : StartEnv) (hours minutes : String)
    (now : Nat) : AppState × StartResult :=
  if st.recording.isSome then (st, StartResult.alreadyRecording)
  else if env.permissionGranted = false then (st, StartResult.permissionDenied)
  else if env.isConnected = false then (st, StartResult.offline)
  else if env.createOk then
    let st1 := { st with recording := some (), isRecording := true }
    let st2 := if hours ≠ "" ∨ minutes ≠ "" then startTimer st1 hours minutes now else st1
    (st2, StartResult.started)
  else
    ({ st with recording := none, isRecording := false }, StartResult.startFailed)

/-- The completed-recording artifact handed to the upload retrier:
`attemptUploadFile(uri, name)` receives exactly these two strings. -/
structure UploadJob where
  fileUri : String
  fileName : String
  deriving DecidableEq, Repr

/-- The user-visible outcome of `stopRecording`: the `NoActiveRecording`
alert, the stop-failure alert, or a normal stop (with the upload job handed
to `attemptUploadFile` when the URI was truthy). -/
inductive StopResult where
  | noActiveRecording
  | stopFailed
  | stoppedUploaded (job : UploadJob)
  | stoppedNoUri
  deriving DecidableEq, Repr

/-- Outcomes of the external collaborators consulted by `stopRecording`:
whether `stopAndUnloadAsync` resolves, and the `getURI()` result (`none`
models a null URI). -/
structure StopEnv where
  stopUnloadOk : Bool
  uri : Option String
  deriving DecidableEq, Repr

/-- The synthesized file name of src/App.js 119 for a given ISO-8601
timestamp string. -/
def defaultFileName (nowIso : String) : String :=
  "recording_" ++ nowIso ++ ".m4a"

/-- `stopRecording` (src/App.js 96-129). With no held recorder it alerts
`NoActiveRecording` and changes nothing. Otherwise it first runs
`clearTimer`, then awaits `stopAndUnloadAsync`: a rejection is caught after
the timer is already cleared but before the ref/flag are reset, so the
session stays held. On success the ref and flag are reset and, if the URI is
truthy (non-null, non-empty), the upload job is built with
`fileName.trim() || recording_<iso>.m4a` and handed off; a falsy URI is
logged and nothing is uploaded. -/
def stopRecording (st : AppState) (env : StopEnv) (fileName nowIso : String) :
    AppState × StopResult :=
  if st.recording.isNone then (st, StopResult.noActiveRecording)
  else
    let st1 := clearTimer st
    if env.stopUnloadOk = false then (st1, StopResult.stopFailed)
    else
      let st2 := { st1 with recording := none, isRecording := false }
      if (env.uri.getD "") ≠ "" then
        let name := if fileName.trim ≠ "" then fileName.trim else defaultFileName nowIso
        (st2, StopResult.stoppedUploaded { fileUri := env.uri.getD "", fileName := name })
      else (st2, StopResult.stoppedNoUri)

/-- The runtime firing the timeout with id `id`: if it is still registered it
is removed from the registry and its callback — `stopRecording`, the only
callback `startTimer` ever installs — runs; a cancelled timeout never fires
(`none`). -/
def fireTimer (st : AppState) (id : Nat) (env : StopEnv) (fileName nowIso : String) :
    AppState × Option StopResult :=
  if st.timeouts.any (fun p => p.1 == id) then
    let st1 := { st with timeouts := st.timeouts.filter (fun p => p.1 != id) }
    let r := stopRecording st1 env fileName nowIso
    (r.1, some r.2)
  else (st, none)

/-! ## Helper lemmas -/

/-- A string whose `parseIntJS` is a number is non-empty (the empty string
parses to NaN). -/
theorem parseIntJS_empty : parseIntJS "" = none := by decide

/-- A positive derived duration forces at least one of the two text fields to
be a non-empty string, so the `if (hours || minutes)` gate of
`startRecording` passes. -/
theorem durationSeconds_pos_ne (hours minutes : String)
    (h : 0 < durationSeconds hours minutes) : hours ≠ "" ∨ minutes ≠ "" := by
  by_contra hc
  push_neg at hc
  obtain ⟨h1, h2⟩ := hc
  subst h1; subst h2
  simp [durationSeconds, parseIntJS_empty] at h

namespace Claims

/-! ## C1 -/

/-- C1: when every upload attempt fails (with connectivity up at every tick),
the run of `attemptUploadFile` issues exactly five HTTP calls, with retries
scheduled exactly 30000 ms after attempt 1, 60000 ms after attempt 2,
120000 ms after attempt 3 and 240000 ms after attempt 4; after the 5th
failed attempt only the permanent-failure notice is emitted — no 6th call
and no further retry is ever scheduled. -/
theorem upload_retry_delays (connected callOk : Nat → Bool)
    (hconn : ∀ k, connected k = true) (hfail : ∀ k, callOk k = false) :
    attemptUploadFile connected callOk =
      [REvent.httpCall 1, REvent.attemptIncr 1, REvent.scheduleRetry 30000,
       REvent.httpCall 2, REvent.attemptIncr 2, REvent.scheduleRetry 60000,
       REvent.httpCall 3, REvent.attemptIncr 3, REvent.scheduleRetry 120000,
       REvent.httpCall 4, REvent.attemptIncr 4, REvent.scheduleRetry 240000,
       REvent.httpCall 5, REvent.attemptIncr 5, REvent.exhaustedNotice] := by
  simp [attemptUploadFile, uploadFileWithRetries, hconn, hfail]

/-- C1 witness: the always-offline-free, always-failing concrete run. -/
theorem upload_retry_delays_witness :
    attemptUploadFile (fun _ => true) (fun _ => false) =
      [REvent.httpCall 1, REvent.attemptIncr 1, REvent.scheduleRetry 30000,
       REvent.httpCall 2, REvent.attemptIncr 2, REvent.scheduleRetry 60000,
       REvent.httpCall 3, REvent.attemptIncr 3, REvent.scheduleRetry 120000,
       REvent.httpCall 4, REvent.attemptIncr 4, REvent.scheduleRetry 240000,
       REvent.httpCall 5, REvent.attemptIncr 5, REvent.exhaustedNotice] :=
  upload_retry_delays (fun _ => true) (fun _ => false) (fun _ => rfl) (fun _ => rfl)

/-! ## C2 -/

/-- Auxiliary for C2: at every configuration of the retry loop, the values
pushed through `attempts++` are exactly the attempt numbers of the HTTP
calls that fail — each failed call is counted once, successful calls are
never counted. -/
theorem incrsOf_loop_filter (connected callOk : Nat → Bool) :
    ∀ fuel attempts delay,
      incrsOf (uploadFileWithRetries connected callOk fuel attempts delay) =
        (callsOf (uploadFileWithRetries connected callOk fuel attempts delay)).filter
          (fun k => ! callOk k) := by
  intro fuel
  induction fuel with
  | zero => intro attempts delay; simp [uploadFileWithRetries, incrsOf, callsOf]
  | succ n ih =>
    intro attempts delay
    by_cases hc : connected (attempts + 1) = false
    · simp [uploadFileWithRetries, hc, incrsOf, callsOf]
    · by_cases hk : callOk (attempts + 1) = true
      · simp [uploadFileWithRetries, hc, hk, incrsOf, callsOf]
      · rw [Bool.not_eq_true] at hk
        by_cases h5 : attempts + 1 < 5
        · have := ih (attempts + 1) (delay * 2)
          simp [uploadFileWithRetries, hc, hk, h5, incrsOf, callsOf] at this ⊢
          exact this
        · simp [uploadFileWithRetries, hc, hk, h5, incrsOf, callsOf]

/-- C2 counterexample: with connectivity up and the very first HTTP call
succeeding, `attemptUploadFile` issues a call (attempt 1) but the attempt
counter is never incremented — the launched attempt is not counted, refuting
the claim that the counter is incremented before the call is issued. -/
theorem attempt_incr_before_call_cex :
    callsOf (attemptUploadFile (fun _ => true) (fun _ => true)) = [1] ∧
    incrsOf (attemptUploadFile (fun _ => true) (fun _ => true)) = [] := by
  decide

/-- C2 amended: in every run of `attemptUploadFile`, the attempt counter is
incremented exactly once per failed HTTP call (in the failure handler, after
the call), in call order; a call that succeeds is never counted. -/
theorem attempt_incr_per_failure (connected callOk : Nat → Bool) :
    incrsOf (attemptUploadFile connected callOk) =
      (callsOf (attemptUploadFile connected callOk)).filter (fun k => ! callOk k) :=
  incrsOf_loop_filter connected callOk 5 0 30000

/-! ## C3 -/

/-- C3: at any retry tick where the connectivity flag is false, the whole
tick is the offline notice alone: the attempt counter is not incremented, no
HTTP call is issued, and no further tick is scheduled — the retry loop
stops. -/
theorem offline_tick_stops_loop (connected callOk : Nat → Bool)
    (fuel attempts delay : Nat) (hoff : connected (attempts + 1) = false) :
    uploadFileWithRetries connected callOk (fuel + 1) attempts delay =
      [REvent.offlineNotice] := by
  simp [uploadFileWithRetries, hoff]

/-- C3 witness: the entry tick of `attemptUploadFile` with connectivity
down. -/
theorem offline_tick_stops_loop_witness :
    uploadFileWithRetries (fun _ => false) (fun _ => true) (4 + 1) 0 30000 =
      [REvent.offlineNotice] :=
  offline_tick_stops_loop (fun _ => false) (fun _ => true) 4 0 30000 rfl

/-! ## C4 -/

/-- C4: whenever a recorder handle is held (`recordingRef.current` set, i.e.
the session is Active), `startRecording` returns with the AlreadyRecording
alert and the state completely unchanged: no new recorder handle, no timer
armed, the active session keeps running. -/
theorem start_while_active_rejected (st : AppState) (env : StartEnv)
    (hours minutes : String) (now : Nat) (h : st.recording.isSome) :
    startRecording st env hours minutes now = (st, StartResult.alreadyRecording) := by
  simp [startRecording, h]

/-- C4 witness: a concrete active session with an armed timer. -/
theorem start_while_active_rejected_witness :
    startRecording ⟨some (), true, some 0, [(0, 60000)], 1⟩ ⟨true, true, true⟩
        "1" "2" 0 =
      (⟨some (), true, some 0, [(0, 60000)], 1⟩, StartResult.alreadyRecording) :=
  start_while_active_rejected ⟨some (), true, some 0, [(0, 60000)], 1⟩
    ⟨true, true, true⟩ "1" "2" 0 rfl

/-! ## C5 -/

/-- C5: with no held recorder handle (state Idle), `stopRecording` returns
with the NoActiveRecording alert and the state unchanged: no UploadJob is
produced (the result is not `stoppedUploaded`) and no upload attempt is
made. -/
theorem stop_while_idle_rejected (st : AppState) (env : StopEnv)
    (fileName nowIso : String) (h : st.recording = none) :
    stopRecording st env fileName nowIso = (st, StopResult.noActiveRecording) := by
  simp [stopRecording, h]

/-- C5 witness: a concrete idle state. -/
theorem stop_while_idle_rejected_witness :
    stopRecording ⟨none, false, none, [], 3⟩ ⟨true, some "file:///r.m4a"⟩ "n" "t" =
      (⟨none, false, none, [], 3⟩, StopResult.noActiveRecording) :=
  stop_while_idle_rejected ⟨none, false, none, [], 3⟩ ⟨true, some "file:///r.m4a"⟩
    "n" "t" rfl

/-! ## C6 -/

/-- C6: a successful `startRecording` (idle, permission granted, online,
recorder acquired, no stale timer id) arms the one-shot stop timer exactly
when the derived `durationSeconds = hours*3600 + minutes*60` is positive,
where each field goes through `parseInt(...) || 0` so unparseable or empty
text coerces to 0; with a zero or unparseable duration no timer is armed. -/
theorem timer_armed_iff_duration_pos (st : AppState) (env : StartEnv)
    (hours minutes : String) (now : Nat)
    (hidle : st.recording = none) (htid : st.timerId = none)
    (hperm : env.permissionGranted = true) (hconn : env.isConnected = true)
    (hcreate : env.createOk = true) :
    ((startRecording st env hours minutes now).1.timerId.isSome = true) ↔
      0 < durationSeconds hours minutes := by
  by_cases hd : 0 < durationSeconds hours minutes
  · have hg := durationSeconds_pos_ne hours minutes hd
    simp [startRecording, hidle, hperm, hconn, hcreate, hg, startTimer,
      clearTimer, htid, hd]
  · simp [startRecording, hidle, hperm, hconn, hcreate, startTimer, htid, hd]

/-- C6 witness: hours "0", minutes "2" give duration 120 s and an armed
timer. -/
theorem timer_armed_iff_duration_pos_witness :
    ((startRecording ⟨none, false, none, [], 0⟩ ⟨true, true, true⟩
        "0" "2" 0).1.timerId.isSome = true) ↔
      0 < durationSeconds "0" "2" :=
  timer_armed_iff_duration_pos ⟨none, false, none, [], 0⟩ ⟨true, true, true⟩
    "0" "2" 0 rfl rfl rfl rfl rfl

/-! ## C8 -/

/-- C8: when `stopRecording` runs on an active session and the recorder
unloads cleanly, then: if the retrieved URI is truthy (present and
non-empty) the upload job it hands off carries that URI and a file name that
is the trimmed user input when non-empty and otherwise the synthesized
`recording_<iso>.m4a`; if the URI is null or empty no job is produced
(`stoppedNoUri`); and in both cases the session returns to Idle (the
recorder handle is released). -/
theorem stop_upload_job (st : AppState) (env : StopEnv) (fileName nowIso : String)
    (hact : st.recording = some ()) (hok : env.stopUnloadOk = true) :
    ((env.uri.getD "" ≠ "") →
      (stopRecording st env fileName nowIso).2 =
        StopResult.stoppedUploaded
          { fileUri := env.uri.getD "",
            fileName := if fileName.trim ≠ "" then fileName.trim
                        else defaultFileName nowIso }) ∧
    ((env.uri.getD "" = "") →
      (stopRecording st env fileName nowIso).2 = StopResult.stoppedNoUri) ∧
    (stopRecording st env fileName nowIso).1.recording = none := by
  by_cases hu : env.uri.getD "" = ""
  · exact ⟨fun hcon => absurd hu hcon,
      fun _ => by simp [stopRecording, hact, hok, hu],
      by simp [stopRecording, hact, hok, hu]⟩
  · exact ⟨fun _ => by simp [stopRecording, hact, hok, hu],
      fun hcon => absurd hcon hu,
      by simp [stopRecording, hact, hok, hu]⟩

/-- C8 witness: a present URI with whitespace-only user file name, so the
synthesized name is used; the session ends Idle. -/
theorem stop_upload_job_witness :
    ((((some "file:///r.m4a" : Option String).getD "" ≠ "") →
      (stopRecording ⟨some (), true, none, [], 1⟩ ⟨true, some "file:///r.m4a"⟩
          "  " "2026-10-11T00:00:00.000Z").2 =
        StopResult.stoppedUploaded
          { fileUri := (some "file:///r.m4a" : Option String).getD "",
            fileName := if ("  " : String).trim ≠ "" then ("  " : String).trim
                        else defaultFileName "2026-10-11T00:00:00.000Z" }) ∧
    (((some "file:///r.m4a" : Option String).getD "" = "") →
      (stopRecording ⟨some (), true, none, [], 1⟩ ⟨true, some "file:///r.m4a"⟩
          "  " "2026-10-11T00:00:00.000Z").2 = StopResult.stoppedNoUri) ∧
    (stopRecording ⟨some (), true, none, [], 1⟩ ⟨true, some "file:///r.m4a"⟩
        "  " "2026-10-11T00:00:00.000Z").1.recording = none) :=
  stop_upload_job ⟨some (), true, none, [], 1⟩ ⟨true, some "file:///r.m4a"⟩
    "  " "2026-10-11T00:00:00.000Z" rfl rfl

/-! ## C10 -/

/-- Auxiliary for C10: removing every pending timeout with id `i` leaves none
with id `i`. -/
theorem any_filter_ne (l : List (Nat × Nat)) (i : Nat) :
    ((l.filter (fun p => p.1 != i)).any (fun p => p.1 == i)) = false := by
  induction l with
  | nil => rfl
  | cons a l ih =>
    by_cases h : a.1 = i
    · simp [List.filter_cons, h, ih]
    · simp [List.filter_cons, h, ih]

/-- C10: when `stopAndUnloadAsync` rejects during `stopRecording` on an
active session, the session is not rolled back: the recorder handle stays
set and the recording flag stays true, no UploadJob is produced (only the
stop-failure alert), yet `clearTimer` has already run before the failure, so
the timer-id variable is nulled and the pending automatic-stop timeout is
gone — the automatic stop is lost for the still-active session. -/
theorem stop_failure_keeps_session (st : AppState) (env : StopEnv)
    (fileName nowIso : String) (hact : st.recording = some ())
    (hrec : st.isRecording = true) (hfail : env.stopUnloadOk = false) :
    stopRecording st env fileName nowIso = (clearTimer st, StopResult.stopFailed) ∧
    (clearTimer st).recording = some () ∧
    (clearTimer st).isRecording = true ∧
    (clearTimer st).timerId = none ∧
    ∀ i, st.timerId = some i →
      ((clearTimer st).timeouts.any (fun p => p.1 == i)) = false := by
  refine ⟨by simp [stopRecording, hact, hfail], ?_, ?_, ?_, ?_⟩
  · cases h : st.timerId <;> simp [clearTimer, h, hact]
  · cases h : st.timerId <;> simp [clearTimer, h, hrec]
  · cases h : st.timerId <;> simp [clearTimer, h]
  · intro i hi
    simp [clearTimer, hi, any_filter_ne]

/-- C10 witness: an active session with an armed 60 s timer whose recorder
fails to unload. -/
theorem stop_failure_keeps_session_witness :
    (stopRecording ⟨some (), true, some 0, [(0, 60000)], 1⟩ ⟨false, some "u"⟩
        "n" "t" =
      (clearTimer ⟨some (), true, some 0, [(0, 60000)], 1⟩, StopResult.stopFailed) ∧
    (clearTimer (⟨some (), true, some 0, [(0, 60000)], 1⟩ : AppState)).recording =
      some () ∧
    (clearTimer (⟨some (), true, some 0, [(0, 60000)], 1⟩ : AppState)).isRecording =
      true ∧
    (clearTimer (⟨some (), true, some 0, [(0, 60000)], 1⟩ : AppState)).timerId =
      none ∧
    ∀ i, (⟨some (), true, some 0, [(0, 60000)], 1⟩ : AppState).timerId = some i →
      ((clearTimer (⟨some (), true, some 0, [(0, 60000)], 1⟩ : AppState)).timeouts.any
        (fun p => p.1 == i)) = false) :=
  stop_failure_keeps_session ⟨some (), true, some 0, [(0, 60000)], 1⟩
    ⟨false, some "u"⟩ "n" "t" rfl rfl rfl

/-! ## C9 -/

/-- Auxiliary for C9: from any loop configuration with `attempts + fuel = 5`
and the counter strictly below the succeeding attempt number `k ≤ 5`, the
run issues exactly the calls `attempts+1, …, k` and ends with the call `k`
followed by the success notice. -/
theorem success_loop (connected callOk : Nat → Bool) (k : Nat)
    (hconn : ∀ j, connected j = true)
    (hfail : ∀ j, 1 ≤ j → j < k → callOk j = false)
    (hsucc : callOk k = true) :
    ∀ fuel attempts delay, attempts + fuel = 5 → attempts < k → k ≤ 5 →
      (∃ pre, uploadFileWithRetries connected callOk fuel attempts delay =
        pre ++ [REvent.httpCall k, REvent.successNotice]) ∧
      callsOf (uploadFileWithRetries connected callOk fuel attempts delay) =
        List.range' (attempts + 1) (k - attempts) := by
  intro fuel
  induction fuel with
  | zero => intro attempts delay h5 hak hk5; omega
  | succ n ih =>
    intro attempts delay h5 hak hk5
    by_cases heq : attempts + 1 = k
    · have hr : k - attempts = 1 := by omega
      refine ⟨⟨[], ?_⟩, ?_⟩
      · simp [uploadFileWithRetries, hconn, heq, hsucc]
      · simp [uploadFileWithRetries, hconn, heq, hsucc, callsOf, hr, List.range']
    · have hlt : attempts + 1 < k := by omega
      have hf : callOk (attempts + 1) = false := hfail _ (by omega) hlt
      have h5' : attempts + 1 < 5 := by omega
      obtain ⟨⟨pre, hpre⟩, hcalls⟩ := ih (attempts + 1) (delay * 2) (by omega) hlt hk5
      constructor
      · refine ⟨REvent.httpCall (attempts + 1) :: REvent.attemptIncr (attempts + 1) ::
          REvent.scheduleRetry delay :: pre, ?_⟩
        simp [uploadFileWithRetries, hconn, hf, h5', hpre]
      · have hr : k - attempts = (k - (attempts + 1)) + 1 := by omega
        simp [uploadFileWithRetries, hconn, hf, h5', callsOf, hr, List.range'] at hcalls ⊢
        simpa [callsOf] using hcalls

/-- C9: if the k-th HTTP call (1 ≤ k ≤ 5) succeeds after the earlier ones
failed (connectivity up throughout), the run of `attemptUploadFile` issues
exactly the calls 1…k and ends with call k followed by the success notice —
no further attempt or retry is scheduled after it; and a single `uploadFile`
call succeeds exactly when the HTTP response status is 200 (any other status
or a network error is a failure). -/
theorem success_on_attempt (connected callOk : Nat → Bool) (k : Nat)
    (hk1 : 1 ≤ k) (hk5 : k ≤ 5)
    (hconn : ∀ j, connected j = true)
    (hfail : ∀ j, 1 ≤ j → j < k → callOk j = false)
    (hsucc : callOk k = true) :
    (∃ pre, attemptUploadFile connected callOk =
      pre ++ [REvent.httpCall k, REvent.successNotice]) ∧
    callsOf (attemptUploadFile connected callOk) = List.range' 1 k ∧
    (∀ resp, uploadFile resp = true ↔ resp = some 200) := by
  obtain ⟨h1, h2⟩ :=
    success_loop connected callOk k hconn hfail hsucc 5 0 30000 rfl hk1 hk5
  refine ⟨h1, by simpa using h2, ?_⟩
  intro resp
  cases resp with
  | none => simp [uploadFile]
  | some s => simp [uploadFile]

/-- C9 witness: the first call fails and the second succeeds. -/
theorem success_on_attempt_witness :
    (∃ pre, attemptUploadFile (fun _ => true) (fun j => j == 2) =
      pre ++ [REvent.httpCall 2, REvent.successNotice]) ∧
    callsOf (attemptUploadFile (fun _ => true) (fun j => j == 2)) =
      List.range' 1 2 ∧
    (∀ resp, uploadFile resp = true ↔ resp = some 200) :=
  success_on_attempt (fun _ => true) (fun j => j == 2) 2 (by decide) (by decide)
    (fun _ => rfl)
    (fun j h1 h2 => by
      have hj : j = 1 := by omega
      subst hj; rfl)
    rfl

/-! ## C7 -/

/-- C7: starting from a fresh idle state at time 0 with a positive derived
duration D, `startRecording` registers exactly one pending timeout, due at
D*1000 ms (D seconds), whose id is held in `timerId`. If nothing cancels it,
firing it runs `stopRecording` itself (identical logic to a manual stop) and
the session ends (`recording = none`). A manual `stopRecording` before
expiry leaves a state with no pending timeout, so the automatic stop never
fires afterwards (`fireTimer` is a pure no-op on it), and a further stop on
that idle state is a no-op answered with `NoActiveRecording`. -/
theorem duration_timer_auto_and_cancel (hours minutes fn iso fn2 iso2 : String)
    (n0 : Nat) (uri2 : Option String) (env3 : StopEnv) (s s1 : AppState)
    (hD : 0 < durationSeconds hours minutes)
    (hstart : s = (startRecording ⟨none, false, none, [], n0⟩ ⟨true, true, true⟩
      hours minutes 0).1)
    (hstop : s1 = (stopRecording s ⟨true, uri2⟩ fn iso).1) :
    s.timeouts = [(n0, (durationSeconds hours minutes).toNat * 1000)] ∧
    s.timerId = some n0 ∧
    (fireTimer s n0 ⟨true, uri2⟩ fn iso).1.recording = none ∧
    (fireTimer s n0 ⟨true, uri2⟩ fn iso).2 =
      some (stopRecording { s with timeouts := [] } ⟨true, uri2⟩ fn iso).2 ∧
    s1.recording = none ∧ s1.timerId = none ∧
    fireTimer s1 n0 env3 fn2 iso2 = (s1, none) ∧
    stopRecording s1 env3 fn2 iso2 = (s1, StopResult.noActiveRecording) := by
  have hg := durationSeconds_pos_ne hours minutes hD
  have hs : s = ⟨some (), true, some n0,
      [(n0, (durationSeconds hours minutes).toNat * 1000)], n0 + 1⟩ := by
    rw [hstart]
    simp [startRecording, startTimer, clearTimer, hg, hD]
  have hs1 : s1 = ⟨none, false, none, [], n0 + 1⟩ := by
    rw [hstop, hs]
    by_cases hu : uri2.getD "" = "" <;> simp [stopRecording, clearTimer, hu]
  subst hs
  subst hs1
  refine ⟨rfl, rfl, ?_, ?_, rfl, rfl, ?_, ?_⟩
  · by_cases hu : uri2.getD "" = "" <;>
      simp [fireTimer, stopRecording, clearTimer, hu]
  · simp [fireTimer]
  · simp [fireTimer]
  · simp [stopRecording]

/-- C7 witness: hours "0", minutes "1" (a 60 s duration), a concrete URI and
stop environments. -/
theorem duration_timer_auto_and_cancel_witness :
    ((startRecording ⟨none, false, none, [], 0⟩ ⟨true, true, true⟩
        "0" "1" 0).1.timeouts =
      [(0, (durationSeconds "0" "1").toNat * 1000)] ∧
    (startRecording ⟨none, false, none, [], 0⟩ ⟨true, true, true⟩
        "0" "1" 0).1.timerId = some 0 ∧
    (fireTimer (startRecording ⟨none, false, none, [], 0⟩ ⟨true, true, true⟩
        "0" "1" 0).1 0 ⟨true, some "u"⟩ "n" "t").1.recording = none ∧
    (fireTimer (startRecording ⟨none, false, none, [], 0⟩ ⟨true, true, true⟩
        "0" "1" 0).1 0 ⟨true, some "u"⟩ "n" "t").2 =
      some (stopRecording
        { (startRecording ⟨none, false, none, [], 0⟩ ⟨true, true, true⟩
            "0" "1" 0).1 with timeouts := [] } ⟨true, some "u"⟩ "n" "t").2 ∧
    (stopRecording (startRecording ⟨none, false, none, [], 0⟩ ⟨true, true, true⟩
        "0" "1" 0).1 ⟨true, some "u"⟩ "n" "t").1.recording = none ∧
    (stopRecording (startRecording ⟨none, false, none, [], 0⟩ ⟨true, true, true⟩
        "0" "1" 0).1 ⟨true, some "u"⟩ "n" "t").1.timerId = none ∧
    fireTimer (stopRecording (startRecording ⟨none, false, none, [], 0⟩
        ⟨true, true, true⟩ "0" "1" 0).1 ⟨true, some "u"⟩ "n" "t").1 0
        ⟨true, some "v"⟩ "n2" "t2" =
      ((stopRecording (startRecording ⟨none, false, none, [], 0⟩
        ⟨true, true, true⟩ "0" "1" 0).1 ⟨true, some "u"⟩ "n" "t").1, none) ∧
    stopRecording (stopRecording (startRecording ⟨none, false, none, [], 0⟩
        ⟨true, true, true⟩ "0" "1" 0).1 ⟨true, some "u"⟩ "n" "t").1
        ⟨true, some "v"⟩ "n2" "t2" =
      ((stopRecording (startRecording ⟨none, false, none, [], 0⟩
        ⟨true, true, true⟩ "0" "1" 0).1 ⟨true, some "u"⟩ "n" "t").1,
        StopResult.noActiveRecording)) :=
  duration_timer_auto_and_cancel "0" "1" "n" "t" "n2" "t2" 0 (some "u")
    ⟨true, some "v"⟩ _ _ (by decide) rfl rfl

end Claims

end RecApp
